import Mathlib

/-!
Verification of the core of the COM-port terminal (src/main.rs): the rolling
output buffer and its trim (ComPortApp::update, lines 101-106), the spawned
reader-thread loop (connect_port, lines 64-76), and the connect_port /
disconnect_port / send_data operations (lines 53-95).

Buffers are modelled at the byte level: a Rust String is a sequence of UTF-8
bytes, String::len is the byte count, and String::split_off cuts at a byte
offset and aborts the process when that offset is not a UTF-8 character
boundary. Bytes are Nat values (the code only compares byte values, nothing
overflows).
-/

namespace ComPortTerminal

/-- A UTF-8 continuation byte: 0x80 ≤ b ≤ 0xBF. This is the byte class that
may NOT start a character; Rust treats an index as a char boundary exactly
when the byte there is not of this class. -/
def isCont (b : Nat) : Bool := 0x80 ≤ b && b ≤ 0xBF

/-- UTF-8 validity of a byte sequence, exactly the check Rust performs in
String::from_utf8 (src/main.rs line 69): ASCII is one byte; 0xC2-0xDF lead a
two-byte character; 0xE0/0xE1-0xEC/0xED/0xEE-0xEF lead three-byte characters
with the restricted second-byte ranges that exclude overlong forms and
surrogates; 0xF0/0xF1-0xF3/0xF4 lead four-byte characters bounded by
U+10FFFF; every other lead byte (0x80-0xC1, 0xF5-0xFF) is invalid. -/
def validUtf8 : List Nat → Bool
  | [] => true
  | b :: rest =>
    if b ≤ 0x7F then validUtf8 rest
    else if 0xC2 ≤ b && b ≤ 0xDF then
      match rest with
      | c :: rest2 => isCont c && validUtf8 rest2
      | [] => false
    else if b == 0xE0 then
      match rest with
      | c :: d :: rest2 => (0xA0 ≤ c && c ≤ 0xBF) && isCont d && validUtf8 rest2
      | _ => false
    else if (0xE1 ≤ b && b ≤ 0xEC) || b == 0xEE || b == 0xEF then
      match rest with
      | c :: d :: rest2 => isCont c && isCont d && validUtf8 rest2
      | _ => false
    else if b == 0xED then
      match rest with
      | c :: d :: rest2 => (0x80 ≤ c && c ≤ 0x9F) && isCont d && validUtf8 rest2
      | _ => false
    else if b == 0xF0 then
      match rest with
      | c :: d :: e :: rest2 =>
        (0x90 ≤ c && c ≤ 0xBF) && isCont d && isCont e && validUtf8 rest2
      | _ => false
    else if 0xF1 ≤ b && b ≤ 0xF3 then
      match rest with
      | c :: d :: e :: rest2 => isCont c && isCont d && isCont e && validUtf8 rest2
      | _ => false
    else if b == 0xF4 then
      match rest with
      | c :: d :: e :: rest2 =>
        (0x80 ≤ c && c ≤ 0x8F) && isCont d && isCont e && validUtf8 rest2
      | _ => false
    else false

/-- The number of characters of a UTF-8 byte sequence: each character
contributes exactly one non-continuation byte (its lead byte), so for valid
UTF-8 this is what String::chars().count() returns in Rust. -/
def utf8CharCount (l : List Nat) : Nat := l.countP (fun b => !isCont b)

/-- Rust str::is_char_boundary at byte index i (the assertion inside
String::split_off): index 0 is a boundary; past-the-end indices are
boundaries only at exactly the length; otherwise the byte at i must not be a
continuation byte. -/
def isCharBoundary (l : List Nat) (i : Nat) : Bool :=
  if i = 0 then true
  else
    match l.drop i with
    | [] => i == l.length
    | b :: _ => !isCont b

/-- One iteration of the drain loop body on the output buffer (src/main.rs
lines 102-105): push_str the received chunk, then, if the byte length now
exceeds max (the code hardcodes max = 1000), replace the buffer by
split_off(len - max), i.e. its last max bytes. split_off asserts that the
cut offset is a character boundary and aborts the process otherwise; that
abort is modelled as none. The capacity is kept as a parameter so that the
specification scenarios with other capacities (e.g. 5) can be stated; the
code itself always runs it at 1000. -/
def drainAppend (max : Nat) (buf chunk : List Nat) : Option (List Nat) :=
  let b := buf ++ chunk
  if max < b.length then
    if isCharBoundary b (b.length - max) then some (b.drop (b.length - max))
    else none
  else some b

/-- The whole drain loop (src/main.rs lines 101-106): rx.try_recv yields the
queued chunks strictly in the order the single producer sent them (std mpsc
is FIFO), and each is appended and trimmed in turn. The channel contents at
drain time are the list cs. -/
def drainAll (max : Nat) (buf : List Nat) : List (List Nat) → Option (List Nat)
  | [] => some buf
  | c :: cs =>
    match drainAppend max buf c with
    | some b => drainAll max b cs
    | none => none

/-- Outcome of one port.read call inside the reader thread: ok with the bytes
read (length 0 on a zero-byte read), or err for any Err the read returns
(timeout, device removed, handle closed — the code does not distinguish). -/
inductive ReadResult where
  | ok (bytes : List Nat)
  | err
deriving DecidableEq

/-- What one iteration of the reader-thread loop body sends on the channel
(src/main.rs lines 67-73): on Ok(t) with t > 0 and bytes that decode as
UTF-8, the decoded chunk is sent; a zero-byte read, an invalid-UTF-8 chunk or
an Err sends nothing. (tx.send cannot fail while the app is alive: the app
owns the receiver for its whole lifetime.) -/
def workerSend : ReadResult → Option (List Nat)
  | ReadResult.err => none
  | ReadResult.ok bs =>
    if 0 < bs.length then
      if validUtf8 bs then some bs else none
    else none

/-- What the reader loop does after one iteration: continue looping (possibly
having sent a chunk), or exit the loop. -/
inductive WorkerAction where
  | continueLoop (sent : Option (List Nat))
  | exitLoop
deriving DecidableEq

/-- Whether the action keeps the loop running. -/
def WorkerAction.continues : WorkerAction → Bool
  | WorkerAction.continueLoop _ => true
  | WorkerAction.exitLoop => false

/-- One full iteration of the reader-thread loop (src/main.rs lines 66-75):
the body is `if let Ok(t) = port.read(..) { .. } thread::sleep(10ms)` inside
`loop { .. }` — there is no break or return on any path, so every iteration
ends by continuing the loop, whatever the read returned. -/
def workerStep (r : ReadResult) : WorkerAction :=
  WorkerAction.continueLoop (workerSend r)

/-- The chunks the reader thread sends, in order, for a sequence of read
outcomes: the loop never exits, so it processes every outcome, sending
exactly the nonempty valid-UTF-8 reads in order. -/
def workerRun (rs : List ReadResult) : List (List Nat) :=
  rs.filterMap workerSend

/-- The error kinds named by the specification (§7). The code declares no
error type at all — connect_port, disconnect_port and send_data all return
unit — so the embedded operations below carry an `Option SpecError`
caller-result component that is none on every path; these constructors exist
only to state claims about what the code surfaces to its caller. -/
inductive SpecError where
  | notConnectedError
  | alreadyConnectedError
  | connectError (reason : String)
  | ioError (reason : String)
deriving DecidableEq, BEq

/-- The state of ComPortApp (src/main.rs lines 7-17) restricted to the fields
the verified operations read or write: selected_port, port_handle (tracked as
whether it is Some), input_buffer and output_buffer (as UTF-8 bytes), plus
`workers`, the number of reader threads spawned so far whose loop is still
running. The fields not touched by these operations (available_ports, the
baud-rate list and selection, the channel endpoints) are omitted; the baud
rate only feeds the OS open call, which is the oracle argument of
connectPort. -/
structure AppState where
  selectedPort : Option String
  portHandle : Bool
  input : List Nat
  output : List Nat
  workers : Nat
deriving DecidableEq

/-- Outcome of the OS open call in connect_port (an external effect, passed
in as an oracle): Ok, or Err with the reason rendered by Display. -/
inductive OpenResult where
  | ok
  | fail (reason : String)
deriving DecidableEq

/-- connect_port (src/main.rs lines 53-83). If no port is selected, the body
does nothing. Otherwise, on open Ok: the handle is stored and a new detached
reader thread is spawned unconditionally — there is no check that the session
was Disconnected and no mechanism that stops an earlier worker, so `workers`
increments. On open Err: the reason is printed to stdout
(println "Error opening port: {e}") and nothing else happens. The second
component is that console output; the third is the value returned to the
caller — connect_port returns unit, so it is none on every path. -/
def connectPort (s : AppState) (r : OpenResult) :
    AppState × Option String × Option SpecError :=
  match s.selectedPort with
  | none => (s, none, none)
  | some _ =>
    match r with
    | OpenResult.ok =>
      ({ s with portHandle := true, workers := s.workers + 1 }, none, none)
    | OpenResult.fail e => (s, some ("Error opening port: " ++ e), none)

/-- disconnect_port (src/main.rs lines 85-87): sets port_handle to None and
nothing else. The reader thread is detached, is never signalled or joined,
and its loop has no exit path (see workerStep), so the count of live workers
is unchanged; the thread even keeps its cloned port handle open. -/
def disconnectPort (s : AppState) : AppState :=
  { s with portHandle := false }

/-- Outcome of the port.write call in send_data (external effect, oracle):
Ok(n) with n bytes accepted (possibly a partial write), or Err. -/
inductive WriteResult where
  | ok (n : Nat)
  | err (reason : String)
deriving DecidableEq

/-- send_data (src/main.rs lines 89-95). When port_handle is None the whole
body is skipped: no write call, no state change, and — send_data returns
unit — no error of any kind reaches the caller. When a handle is present,
input_buffer is passed to port.write; on Ok(_) (any n, partial included) the
input is cleared, on Err nothing changes and the error is discarded. The
second component records the bytes handed to port.write (none = the write
was never called); the third is the caller result, none on every path. -/
def sendData (s : AppState) (w : WriteResult) :
    AppState × Option (List Nat) × Option SpecError :=
  if s.portHandle then
    match w with
    | WriteResult.ok _ => ({ s with input := [] }, some s.input, none)
    | WriteResult.err _ => (s, some s.input, none)
  else (s, none, none)

/-- A disconnected demo state with a port selected and two bytes typed into
the input box. -/
def demoDisconnected : AppState :=
  { selectedPort := some "COM3", portHandle := false,
    input := [104, 105], output := [], workers := 0 }

/-- A connected demo state (one live worker) with two bytes typed. -/
def demoConnected : AppState :=
  { selectedPort := some "COM3", portHandle := true,
    input := [104, 105], output := [], workers := 1 }

set_option maxRecDepth 10000

/-- Helper: whenever one pass of the drain loop body returns (does not
abort), the resulting buffer holds at most max bytes. -/
theorem drainAppend_length_le {max : Nat} {buf chunk out : List Nat}
    (h : drainAppend max buf chunk = some out) : out.length ≤ max := by
  simp only [drainAppend] at h
  split at h
  · split at h
    · injection h with h
      subst h
      simp only [List.length_drop]
      omega
    · exact Option.noConfusion h
  · injection h with h
    subst h
    omega

/-- C1 (amended): append measured in BYTES. Whenever the drain loop body
completes, the buffer equals the concatenation of the old contents and the
chunk if that concatenation has byte length at most max, and otherwise the
suffix of exactly max bytes of that concatenation (the dropped part is the
prefix, so order is preserved and the newest bytes are retained). -/
theorem C1_append_suffix (max : Nat) (buf chunk out : List Nat)
    (h : drainAppend max buf chunk = some out) :
    ((buf ++ chunk).length ≤ max → out = buf ++ chunk)
    ∧ (max < (buf ++ chunk).length →
        out.length = max ∧
        (buf ++ chunk).take ((buf ++ chunk).length - max) ++ out = buf ++ chunk) := by
  simp only [drainAppend] at h
  split at h
  · split at h
    · injection h with h
      subst h
      refine ⟨fun hle => by omega, fun _ => ⟨?_, ?_⟩⟩
      · simp only [List.length_drop]
        omega
      · exact List.take_append_drop _ _
    · exact Option.noConfusion h
  · injection h with h
    subst h
    exact ⟨fun _ => rfl, fun hlt => by omega⟩

/-- C1 witness: the claim scenario at capacity 5 — the buffer holds "hello",
"!" is appended, and the result "ello!" is the 5-byte suffix of "hello!". -/
theorem C1_append_suffix_witness :
    drainAppend 5 [104, 101, 108, 108, 111] [33] = some [101, 108, 108, 111, 33]
    ∧ ([101, 108, 108, 111, 33] : List Nat).length = 5
    ∧ ([104, 101, 108, 108, 111, 33] : List Nat).take 1 ++ [101, 108, 108, 111, 33]
        = [104, 101, 108, 108, 111] ++ [33] := by
  refine ⟨by decide, ?_, ?_⟩
  · exact ((C1_append_suffix 5 [104, 101, 108, 108, 111] [33] [101, 108, 108, 111, 33]
      (by decide)).2 (by decide)).1
  · exact ((C1_append_suffix 5 [104, 101, 108, 108, 111] [33] [101, 108, 108, 111, 33]
      (by decide)).2 (by decide)).2

/-- C1 counterexample: capacity is NOT counted in characters. Start from a
buffer of 999 ASCII bytes and append one e-acute character (bytes 195, 169):
the concatenation has 1000 characters, so the claim as stated (capacity 1000
characters) requires the buffer to equal the concatenation unchanged; the
code compares BYTE length 1001 > 1000 and trims to the last 1000 bytes,
dropping the oldest character, so its result differs from the concatenation
(the lengths 1000 vs 1001 show the difference explicitly). -/
theorem C1_chars_counterexample :
    utf8CharCount (List.replicate 999 97 ++ [195, 169]) ≤ 1000
    ∧ (drainAppend 1000 (List.replicate 999 97) [195, 169]
        == some (List.replicate 999 97 ++ [195, 169])) = false
    ∧ Option.map List.length
        (drainAppend 1000 (List.replicate 999 97) [195, 169]) = some 1000
    ∧ (List.replicate 999 97 ++ [195, 169]).length = 1001 := by
  refine ⟨by decide, by decide, by decide, by decide⟩

/-- C2: after every completed append of the drain loop, the buffer length is
at most the capacity — in bytes, and therefore also in characters, since each
character of a UTF-8 string contributes at least one byte. -/
theorem C2_length_invariant (max : Nat) (buf chunk out : List Nat)
    (h : drainAppend max buf chunk = some out) :
    out.length ≤ max ∧ utf8CharCount out ≤ max := by
  have hb := drainAppend_length_le h
  refine ⟨hb, ?_⟩
  unfold utf8CharCount
  exact le_trans (List.countP_le_length _) hb

/-- C2 witness: appending a byte to a full 3-byte buffer at capacity 3 leaves
3 bytes and at most 3 characters. -/
theorem C2_length_invariant_witness :
    ([98, 99, 100] : List Nat).length ≤ 3 ∧ utf8CharCount [98, 99, 100] ≤ 3 :=
  C2_length_invariant 3 [97, 98, 99] [100] [98, 99, 100] (by decide)

/-- C3 (code evidence): the reader-thread loop has NO exit path. Every read
outcome — the hard I/O error included — ends the iteration by continuing the
loop, and disconnect_port only drops the foreground handle, leaving the
count of live workers unchanged: the worker outlives the Connected state
indefinitely, contrary to the claim. -/
theorem C3_worker_never_exits :
    (∀ r : ReadResult, (workerStep r).continues = true)
    ∧ workerStep ReadResult.err = WorkerAction.continueLoop none
    ∧ (∀ s : AppState, (disconnectPort s).workers = s.workers) :=
  ⟨fun _ => rfl, rfl, fun _ => rfl⟩

/-- C4 (code evidence): live workers are not limited to one per session.
Connect (open succeeds), disconnect, connect again: two reader threads are
alive, because the first one never exits. Moreover connect_port itself has no
already-connected guard: called twice without a disconnect it also ends with
two live workers, returns no error, and keeps the handle — the second call is
not rejected. -/
theorem C4_two_live_workers :
    (connectPort (disconnectPort (connectPort demoDisconnected OpenResult.ok).1)
        OpenResult.ok).1.workers = 2
    ∧ (connectPort (connectPort demoDisconnected OpenResult.ok).1
        OpenResult.ok).1.workers = 2
    ∧ (connectPort (connectPort demoDisconnected OpenResult.ok).1
        OpenResult.ok).2.2 = none
    ∧ (connectPort (connectPort demoDisconnected OpenResult.ok).1
        OpenResult.ok).1.portHandle = true :=
  ⟨rfl, rfl, rfl, rfl⟩

/-- C5 counterexample: a send while Disconnected does NOT fail with
NotConnectedError — send_data returns unit and its body is skipped entirely,
so the caller-result component of the embedded operation is none, not
notConnectedError; the state (input included) is unchanged and no write
happens, but no error of any kind is surfaced. -/
theorem C5_counterexample :
    sendData demoDisconnected (WriteResult.err "io error")
      = (demoDisconnected, none, none)
    ∧ ((sendData demoDisconnected (WriteResult.err "io error")).2.2
        == some SpecError.notConnectedError) = false :=
  ⟨rfl, rfl⟩

/-- C5 (amended): a send while Disconnected is a silent no-op: the port
handle is never touched (no write call), the input buffer and every other
field are unchanged, and nothing — in particular no NotConnectedError — is
returned to the caller. -/
theorem C5_disconnected_send_noop (s : AppState) (w : WriteResult)
    (h : s.portHandle = false) : sendData s w = (s, none, none) := by
  simp [sendData, h]

/-- C5 witness: the disconnected demo state, any write outcome. -/
theorem C5_disconnected_send_noop_witness :
    sendData demoDisconnected (WriteResult.ok 2) = (demoDisconnected, none, none) :=
  C5_disconnected_send_noop demoDisconnected (WriteResult.ok 2) rfl

/-- C6 counterexample: when the open fails, the session state is untouched
and no worker is spawned, but the ConnectError is NOT surfaced to the caller:
connect_port returns unit (caller component none, not connectError); the
reason is only printed to stdout. -/
theorem C6_counterexample :
    (connectPort demoDisconnected (OpenResult.fail "not found")).1 = demoDisconnected
    ∧ (connectPort demoDisconnected (OpenResult.fail "not found")).2.1
        = some ("Error opening port: " ++ "not found")
    ∧ ((connectPort demoDisconnected (OpenResult.fail "not found")).2.2
        == some (SpecError.connectError "not found")) = false :=
  ⟨rfl, rfl, rfl⟩

/-- C6 (amended): for every connect attempt whose open fails, the session is
left exactly in its pre-call state (so it stays Disconnected if it was, and
no worker is spawned), and the failure reason is printed to the console
rather than returned to the caller. -/
theorem C6_connect_fail_preserves_state (s : AppState) (p e : String)
    (h : s.selectedPort = some p) :
    connectPort s (OpenResult.fail e)
      = (s, some ("Error opening port: " ++ e), none) := by
  simp [connectPort, h]

/-- C6 witness: open of the selected port fails with "busy". -/
theorem C6_connect_fail_preserves_state_witness :
    connectPort demoDisconnected (OpenResult.fail "busy")
      = (demoDisconnected, some ("Error opening port: " ++ "busy"), none) :=
  C6_connect_fail_preserves_state demoDisconnected "COM3" "busy" rfl

/-- C7: the drain appends the queued chunks in exactly the order the single
producer pushed them: when the total fits the capacity, the resulting buffer
is the old contents followed by the concatenation of the chunks in push
order — never reordered, never merged out of order. -/
theorem C7_fifo_order (max : Nat) (buf : List Nat) (cs : List (List Nat))
    (h : (buf ++ cs.flatten).length ≤ max) :
    drainAll max buf cs = some (buf ++ cs.flatten) := by
  induction cs generalizing buf with
  | nil => simp [drainAll]
  | cons c cs ih =>
    have hlen : (buf ++ c).length ≤ max := by
      simp only [List.flatten_cons, List.length_append] at h ⊢
      omega
    have hstep : drainAppend max buf c = some (buf ++ c) := by
      simp only [drainAppend]
      rw [if_neg (by omega)]
    have h2 : ((buf ++ c) ++ cs.flatten).length ≤ max := by
      simpa [List.flatten_cons, List.append_assoc] using h
    simp only [drainAll, hstep]
    simpa [List.flatten_cons, List.append_assoc] using ih (buf ++ c) h2

/-- C7 witness: chunks "AB", "CD", "EF" drained into an empty buffer appear
as "ABCDEF". -/
theorem C7_fifo_order_witness :
    drainAll 1000 [] [[65, 66], [67, 68], [69, 70]] = some [65, 66, 67, 68, 69, 70] :=
  C7_fifo_order 1000 [] [[65, 66], [67, 68], [69, 70]] (by decide)

/-- C8: a read chunk that is not valid UTF-8 is dropped silently by the
worker (nothing is sent), the loop continues, and a subsequent valid chunk is
still delivered: running the loop on the bad chunk then the good one sends
exactly the good one. -/
theorem C8_invalid_dropped_loop_alive (bad good : List Nat)
    (h1 : validUtf8 bad = false) (h2 : validUtf8 good = true)
    (h3 : 0 < good.length) :
    workerSend (ReadResult.ok bad) = none
    ∧ workerStep (ReadResult.ok bad) = WorkerAction.continueLoop none
    ∧ workerRun [ReadResult.ok bad, ReadResult.ok good] = [good] := by
  have hb : workerSend (ReadResult.ok bad) = none := by
    simp [workerSend, h1]
  have hg : workerSend (ReadResult.ok good) = some good := by
    simp [workerSend, h2, h3]
  refine ⟨hb, ?_, ?_⟩
  · simp [workerStep, hb]
  · simp [workerRun, hb, hg]

/-- C8 witness: the lone byte 0xFF is invalid UTF-8 and is dropped; "hi"
(bytes 104, 105) read next is still delivered. -/
theorem C8_invalid_dropped_loop_alive_witness :
    workerSend (ReadResult.ok [255]) = none
    ∧ workerStep (ReadResult.ok [255]) = WorkerAction.continueLoop none
    ∧ workerRun [ReadResult.ok [255], ReadResult.ok [104, 105]] = [[104, 105]] :=
  C8_invalid_dropped_loop_alive [255] [104, 105] (by decide) (by decide) (by decide)

/-- C9: sending while Connected clears the input fully on any non-error
write (partial writes included: Ok(n) for every n), and on a write error
leaves the input buffer exactly as it was — the unsent input is not
discarded. In both cases the full input was the data handed to the write. -/
theorem C9_send_clear_or_retain (s : AppState) (n : Nat) (e : String)
    (h : s.portHandle = true) :
    sendData s (WriteResult.ok n) = ({ s with input := [] }, some s.input, none)
    ∧ sendData s (WriteResult.err e) = (s, some s.input, none) := by
  constructor <;> simp [sendData, h]

/-- C9 witness: the connected demo state with input "hi"; a partial write
Ok(1) clears the input, a failed write retains it. -/
theorem C9_send_clear_or_retain_witness :
    sendData demoConnected (WriteResult.ok 1)
      = ({ demoConnected with input := [] }, some [104, 105], none)
    ∧ sendData demoConnected (WriteResult.err "device gone")
      = (demoConnected, some [104, 105], none) :=
  C9_send_clear_or_retain demoConnected 1 "device gone" rfl

/-- C10: the capacity check counts bytes and the trim cuts at the byte offset
len - 1000, which need not be a character boundary. Concretely: a single read
of 500 e-acute characters (1000 bytes, valid UTF-8) fills the buffer; the
next read of the single byte "a" (valid UTF-8) makes the length 1001, and the
trim tries to cut at offset 1, in the middle of the first character — the
split_off assertion fails and the drain aborts instead of trimming. -/
theorem C10_trim_aborts_on_multibyte :
    validUtf8 (List.flatten (List.replicate 500 [195, 169])) = true
    ∧ validUtf8 [97] = true
    ∧ utf8CharCount (List.flatten (List.replicate 500 [195, 169])) = 500
    ∧ (List.flatten (List.replicate 500 [195, 169])).length = 1000
    ∧ drainAll 1000 [] [List.flatten (List.replicate 500 [195, 169]), [97]] = none := by
  refine ⟨by decide, by decide, by decide, by decide, by decide⟩

end ComPortTerminal
